import Mathlib

/-!
Verification development for the pypads cache and run-lifecycle core
(`src/pypads/caches.py` and `src/pypads/app/api.py`).

Python values held by caches are modelled by the inductive type `V`; Python
dicts are association lists with unique keys, preserving insertion order.
External collaborators (the mlflow backend, helpers from modules not in src/)
are modelled from the spec where noted. Recursive operations carry an explicit
fuel parameter bounding recursion depth, mirroring Python's recursion limit.
-/

namespace Pypads

/-- Outcome of invoking a registered setup/teardown callable. -/
inductive TDOutcome where
  | ok : TDOutcome
  | raises (msg : String) : TDOutcome
  | interrupt : TDOutcome
deriving DecidableEq

/-- Action of a registered run function: either the run-cache cleanup registered by
`PypadsRunCache.register_cleanup_fn` (which deletes the run cache for `runId`), or a
user-supplied callable with a fixed outcome. -/
inductive TDAct where
  | cleanup (runId : Nat) : TDAct
  | user (outcome : TDOutcome) : TDAct
deriving DecidableEq

/-- A registered setup or teardown entry: the callable's name, its numeric order
(lower runs first), and its action. -/
structure TDEntry where
  fname : String
  order : Nat
  act : TDAct
deriving DecidableEq

/-- `sys.maxsize` on a 64-bit platform, the order used for the cache cleanup entry. -/
def sysMaxsize : Nat := 9223372036854775807

/-- Python values stored in caches: None, scalars, dicts, lists, sets, nested `Cache`
objects, mlflow run objects (by run id; `V.runRef Option.none` is Python None stored
where a run is expected), and `Cache` objects holding registered run functions. -/
inductive V where
  | none : V
  | nat (n : Nat) : V
  | str (s : String) : V
  | dict (d : List (String × V)) : V
  | list (l : List V) : V
  | set (s : List V) : V
  | cache (c : List (String × V)) : V
  | runRef (r : Option Nat) : V
  | fnreg (l : List (String × TDEntry)) : V

/-- A Python dict with string keys, as an insertion-ordered association list. -/
abbrev Cache := List (String × V)

/-- Association-list lookup (Python `d[k]` / `d.get(k)`). -/
def alookup {α β : Type} [DecidableEq α] (k : α) : List (α × β) → Option β
  | [] => Option.none
  | (k2, v) :: rest => if k2 = k then some v else alookup k rest

/-- Python `k in d`. -/
def amem {α β : Type} [DecidableEq α] (k : α) (l : List (α × β)) : Bool :=
  (alookup k l).isSome

/-- Python `d[k] = v`: replace in place when the key exists (keeping its position),
append otherwise. -/
def aset {α β : Type} [DecidableEq α] (k : α) (v : β) : List (α × β) → List (α × β)
  | [] => [(k, v)]
  | (k2, v2) :: rest => if k2 = k then (k2, v) :: rest else (k2, v2) :: aset k v rest

/-- Python `del d[k]` / `d.pop(k)`: remove the entry for the key. -/
def aerase {α β : Type} [DecidableEq α] (k : α) : List (α × β) → List (α × β)
  | [] => []
  | (k2, v2) :: rest => if k2 = k then rest else (k2, v2) :: aerase k rest

/-- Python `d1.update(d2)`: each entry of `d2` is set in `d1` in order. -/
def pupdate (d : Cache) (d2 : Cache) : Cache :=
  d2.foldl (fun acc kv => aset kv.1 kv.2 acc) d

/-- Python `==` restricted to hashable values as they occur in sets. Distinct compound
objects (dicts, lists, sets, Cache instances) are unhashable or compare by identity,
so only scalar equality is observable for set membership. -/
def pyEq : V → V → Bool
  | V.none, V.none => true
  | V.nat a, V.nat b => a == b
  | V.str a, V.str b => a == b
  | _, _ => false

/-- Python `v in s` for a set `s`. -/
def setMem (v : V) (s : List V) : Bool :=
  s.any (pyEq v)

/-- Modelled from the spec: `pypads.util.dict_merge` is imported by `caches.py` but its
source module is not part of src/. Per the spec, dictionary-like values "merge
recursively key-by-key"; a non-dictionary operand contributes nothing and the later
value wins. Fuel bounds the recursion depth. -/
def dict_merge : Nat → V → V → V
  | 0, _, b => b
  | fuel+1, V.dict a, V.dict b =>
      V.dict (b.foldl (fun acc kv =>
        match alookup kv.1 acc with
        | some old => aset kv.1 (dict_merge fuel old kv.2) acc
        | Option.none => aset kv.1 kv.2 acc) a)
  | _+1, _, b => b

mutual

/-- `cache_merge` from caches.py:9-33. The arguments are the `_cache` dicts of the
caches being merged (always dicts at every call site, so the `isinstance(d, dict)`
guard is satisfied). Each key/value pair of each input is layered onto the
accumulated mapping by `cacheMergeStep`. -/
def cache_merge : Nat → List Cache → Except String Cache
  | 0, _ => Except.error "RecursionError: maximum recursion depth exceeded"
  | fuel+1, ds =>
      ds.foldlM (fun merged d =>
        d.foldlM (fun m kv => cacheMergeStep fuel m kv.1 kv.2) merged) []

/-- One iteration of the inner loop of `cache_merge` (caches.py:13-32), dispatching on
the runtime type of the incoming value. -/
def cacheMergeStep : Nat → Cache → String → V → Except String Cache
  | 0, _, _, _ => Except.error "RecursionError: maximum recursion depth exceeded"
  | fuel+1, merged, key, value =>
    match value with
    | V.dict _ =>
        -- node = merged.setdefault(key, {}); merged[key] = dict_merge(node, value)
        Except.ok (aset key (dict_merge fuel ((alookup key merged).getD (V.dict [])) value) merged)
    | V.list _ =>
        -- node = merged.setdefault(key, []); merged[key] = node.extend(value)
        -- list.extend mutates node and returns Python None, so None gets stored;
        -- a node that is not a list has no extend method.
        (match (alookup key merged).getD (V.list []) with
         | V.list _ => Except.ok (aset key V.none merged)
         | _ => Except.error "AttributeError: object has no attribute extend")
    | V.set vs =>
        -- s = merged.setdefault(key, set()); each element is added unless already
        -- present, in which case s.pop(v) is called, and set.pop accepts no argument.
        (match (alookup key merged).getD (V.set []) with
         | V.set s0 =>
             (match vs.foldlM (fun s v =>
                 if setMem v s then Except.error "TypeError: pop takes no arguments"
                 else Except.ok (s ++ [v])) s0 with
              | Except.ok s => Except.ok (aset key (V.set s) merged)
              | Except.error e => Except.error e)
         | _ => Except.error "TypeError: argument is not a set")
    | V.cache c2 =>
        -- node = merged.setdefault(key, Cache()); merged[key] = value.merge(node),
        -- i.e. cache_merge(value.cache, node.cache) stored into the incoming cache.
        (match (alookup key merged).getD (V.cache []) with
         | V.cache c1 =>
             (match cache_merge fuel [c2, c1] with
              | Except.ok m => Except.ok (aset key (V.cache m) merged)
              | Except.error e => Except.error e)
         | _ => Except.error "AttributeError: object has no attribute cache")
    | _ => Except.ok (aset key value merged)

end

/-- `Cache.merge` from caches.py:44-46: `self._cache = cache_merge(self.cache, other.cache)`. -/
def Cache.merge (fuel : Nat) (self other : Cache) : Except String Cache :=
  cache_merge fuel [self, other]

/-- `Cache.add` from caches.py:48-55. When the key exists and the new value is a dict,
`self.cache.get(key).update(value)` is invoked on the existing value: dict.update
merges key-by-key in place, set.update adds the dict's keys as elements, and any
other existing value has no update attribute. Otherwise the value is stored. -/
def Cache.add (c : Cache) (key : String) (value : V) : Except String Cache :=
  if amem key c then
    match value with
    | V.dict d2 =>
        (match alookup key c with
         | some (V.dict d1) => Except.ok (aset key (V.dict (pupdate d1 d2)) c)
         | some (V.set s) =>
             Except.ok (aset key
               (V.set (s ++ (d2.map (fun kv => V.str kv.1)).filter (fun v => !setMem v s))) c)
         | _ => Except.error "AttributeError: object has no attribute update")
    | _ => Except.ok (aset key value c)
  else
    Except.ok (c ++ [(key, value)])

/-- `Cache.pop` from caches.py:57-60: when the key is present, `dict.pop(key, default)`
returns the stored value and removes it; otherwise the method returns None and the
supplied default is never consulted. -/
def Cache.pop (c : Cache) (key : String) (default : V) : V × Cache :=
  if amem key c then
    ((alookup key c).getD default, aerase key c)
  else
    (V.none, c)

/-- `Cache.get` from caches.py:62-63. -/
def Cache.get (c : Cache) (item : String) (default : V) : V :=
  (alookup item c).getD default

/-- `Cache.exists` from caches.py:68-69. -/
def Cache.exists (c : Cache) (key : String) : Bool :=
  amem key c

/-- `Cache.clear` from caches.py:71-72. -/
def Cache.clear (_ : Cache) : Cache := []

/-! ### Metadata sidecar naming (api.py `_write_meta` / `_read_meta`) -/

/-- Modelled from the spec: `FileFormats` from `pypads.utils.logging_util` (not in
src/), the enum of interchange formats with their extension strings; `json` and
`yaml` are the members used by `_write_meta` and `_read_meta`. -/
inductive FileFormats where
  | json : FileFormats
  | yaml : FileFormats
  | text : FileFormats
deriving DecidableEq

/-- The extension string of a format (`read_format.value` in api.py:279). -/
def FileFormats.value : FileFormats → String
  | FileFormats.json => "json"
  | FileFormats.yaml => "yaml"
  | FileFormats.text => "txt"

/-- Modelled from the spec: `_to_metric_meta_name` from `pypads.utils.logging_util`
(not in src/) derives the sidecar base name deterministically from the logged key;
the spec names the record `<key>.meta.<format>` and `_write_meta` itself appends
`.meta`, so the helper is the identity on the key. The same helper is used on the
write path (`_log_metric_meta`) and the read path (`metric_meta`). -/
def toMetricMetaName (key : String) : String := key

/-- The artifact name under which `PyPadsApi._write_meta` (api.py:260-270) stores a
meta record: the path passed to the backend is `name + ".meta"` with file format
`write_format`, whose default at every call site is `FileFormats.json`. Modelled
from the spec: the backend stores the artifact as `<path>.<format extension>`. -/
def write_meta_name (name : String) (write_format : FileFormats) : String :=
  (name ++ ".meta") ++ "." ++ write_format.value

/-- The artifact name `PyPadsApi._read_meta` (api.py:272-279) reads:
`name + ".meta." + read_format.value`, whose default at every call site
(`metric_meta`, `param_meta`, `artifact_meta`) is `FileFormats.yaml`. -/
def read_meta_name (name : String) (read_format : FileFormats) : String :=
  name ++ ".meta." ++ read_format.value

/-- Name written for a metric meta record by `log_metric` → `_log_metric_meta` →
`_write_meta` with the default write format. -/
def metric_meta_written_name (key : String) : String :=
  write_meta_name (toMetricMetaName key) FileFormats.json

/-- Name read back for a metric meta record by `metric_meta` → `_read_meta` with the
default read format. -/
def metric_meta_read_name (key : String) : String :=
  read_meta_name (toMetricMetaName key) FileFormats.yaml

/-! ### The mlflow run context and the run-cache registry (`PypadsCache`) -/

/-- Modelled from the spec: the state of the external mlflow backend's run lifecycle.
`stack` is the stack of currently active runs (innermost first; starting a nested run
pushes, ending a run pops), `known` lists the ids of all runs ever created, which
`mlflow.get_run` can resolve. -/
structure MlCtx where
  stack : List Nat
  known : List Nat
deriving DecidableEq

/-- `mlflow.active_run()`: the innermost active run, if any. -/
def mlflow_active_run (ctx : MlCtx) : Option Nat :=
  ctx.stack.head?

/-- `mlflow.get_run(run_id)`: resolves an existing run by id. -/
def mlflow_get_run (rid : Nat) (ctx : MlCtx) : Option Nat :=
  if rid ∈ ctx.known then some rid else Option.none

/-- `PypadsCache._get_run` from caches.py:136-141. -/
def get_run (rid : Option Nat) (ctx : MlCtx) : Option Nat :=
  match rid with
  | Option.none => mlflow_active_run ctx
  | some r => mlflow_get_run r ctx

/-- The mutable cache state of the process: the run-cache registry
(`PypadsCache._run_caches`, one `Cache` per run id), the process-wide cache
(`PypadsCache._cache`), and the artifacts written to the backend. -/
structure Caches where
  runCaches : List (Nat × Cache)
  proc : Cache
  arts : List String

/-- Where `_get_teardown_cache` found the registry: the process cache or a run cache. -/
inductive TDLoc where
  | proc : TDLoc
  | run (rid : Nat) : TDLoc

/-- Writing an updated registry back models the Python in-place mutation of the
`Cache` object that `_get_teardown_cache` returned a reference to. -/
def put_teardown_registry (loc : TDLoc) (reg : List (String × TDEntry)) (c : Caches) : Caches :=
  match loc with
  | TDLoc.proc => { c with proc := aset "post_run_fns" (V.fnreg reg) c.proc }
  | TDLoc.run r =>
    match alookup r c.runCaches with
    | some rc => { c with runCaches := aset r (aset "post_run_fns" (V.fnreg reg) rc) c.runCaches }
    | Option.none => c

/-- `PypadsRunCache.__init__` from caches.py:92-96: `self._run = run or
mlflow.active_run()`, raising ValueError when neither yields a run, so a run cache
never exists without a resolvable run. -/
def pypadsRunCache_init (run : Option Nat) (ctx : MlCtx) : Except String Nat :=
  match run with
  | some r => Except.ok r
  | Option.none =>
    match mlflow_active_run ctx with
    | some r => Except.ok r
    | Option.none => Except.error "No active run for run cache found."

/-- The teardown entry registered by `PypadsRunCache.register_cleanup_fn`
(caches.py:105-115): named "cache_cleanup", ordered last (`sys.maxsize`), deleting
the run cache of run `r` when invoked. -/
def cleanupEntry (r : Nat) : TDEntry :=
  { fname := "cache_cleanup", order := sysMaxsize, act := TDAct.cleanup r }

mutual

/-- `PypadsCache.run_init` from caches.py:143-151: resolve the run (error when none),
lazily create the `PypadsRunCache` when absent and register its cleanup teardown. -/
def run_init : Nat → MlCtx → Option Nat → Caches → Except String (Nat × Caches)
  | 0, _, _, _ => Except.error "RecursionError: maximum recursion depth exceeded"
  | fuel+1, ctx, rid, c =>
    match get_run rid ctx with
    | Option.none => Except.error "No run is active. Couldn't init run cache."
    | some r =>
      if amem r c.runCaches then Except.ok (r, c)
      else
        -- run_cache = PypadsRunCache(run): run is non-None here, so no ValueError;
        -- then run_cache.register_cleanup_fn() registers cleanup with order maxsize
        match register_post_fn fuel ctx "cache_cleanup" (cleanupEntry r)
            { c with runCaches := c.runCaches ++ [(r, [])] } with
        | Except.ok c2 => Except.ok (r, c2)
        | Except.error e => Except.error e

/-- Modelled from the spec: `register_cleanup_fn` (caches.py:105-115) calls
`pads.api.register_post_fn`, whose definition is not under src/; per the spec it
registers the cleanup in the teardown registry under the given name, as a silent
no-op when the name already exists, like api.py's `register_teardown`. -/
def register_post_fn : Nat → MlCtx → String → TDEntry → Caches → Except String Caches
  | 0, _, _, _, _ => Except.error "RecursionError: maximum recursion depth exceeded"
  | fuel+1, ctx, name, entry, c =>
    match get_teardown_registry fuel ctx c with
    | Except.error e => Except.error e
    | Except.ok (loc, reg, c2) =>
      if amem name reg then Except.ok c2
      else Except.ok (put_teardown_registry loc (reg ++ [(name, entry)]) c2)

/-- `PyPadsApi._get_teardown_cache` from api.py:425-441: with no active run, the
process-wide "post_run_fns" cache (created on first use); otherwise the active run's
run-scoped "post_run_fns" cache (created on first use through run_add). -/
def get_teardown_registry : Nat → MlCtx → Caches → Except String (TDLoc × List (String × TDEntry) × Caches)
  | 0, _, _ => Except.error "RecursionError: maximum recursion depth exceeded"
  | fuel+1, ctx, c =>
    match mlflow_active_run ctx with
    | Option.none =>
      (match alookup "post_run_fns" c.proc with
       | some (V.fnreg l) => Except.ok (TDLoc.proc, l, c)
       | some _ => Except.error "TypeError: not a function registry"
       | Option.none =>
         Except.ok (TDLoc.proc, [], { c with proc := c.proc ++ [("post_run_fns", V.fnreg [])] }))
    | some r =>
      match run_exists fuel ctx "post_run_fns" Option.none c with
      | Except.error e => Except.error e
      | Except.ok (b, c2) =>
        match (if b then Except.ok c2
               else run_add fuel ctx "post_run_fns" (V.fnreg []) Option.none c2) with
        | Except.error e => Except.error e
        | Except.ok c3 =>
          match run_get fuel ctx "post_run_fns" Option.none c3 with
          | Except.error e => Except.error e
          | Except.ok (V.fnreg l, c4) => Except.ok (TDLoc.run r, l, c4)
          | Except.ok _ => Except.error "TypeError: not a function registry"

/-- `PypadsCache.run_exists` from caches.py:169-171. -/
def run_exists : Nat → MlCtx → String → Option Nat → Caches → Except String (Bool × Caches)
  | 0, _, _, _, _ => Except.error "RecursionError: maximum recursion depth exceeded"
  | fuel+1, ctx, key, rid, c =>
    match run_init fuel ctx rid c with
    | Except.error e => Except.error e
    | Except.ok (r, c2) =>
      match alookup r c2.runCaches with
      | some rc => Except.ok (Cache.exists rc key, c2)
      | Option.none => Except.error "KeyError: missing run cache"

/-- `PypadsCache.run_add` from caches.py:153-155. -/
def run_add : Nat → MlCtx → String → V → Option Nat → Caches → Except String Caches
  | 0, _, _, _, _, _ => Except.error "RecursionError: maximum recursion depth exceeded"
  | fuel+1, ctx, key, value, rid, c =>
    match run_init fuel ctx rid c with
    | Except.error e => Except.error e
    | Except.ok (r, c2) =>
      match alookup r c2.runCaches with
      | some rc =>
        match Cache.add rc key value with
        | Except.ok rc2 => Except.ok { c2 with runCaches := aset r rc2 c2.runCaches }
        | Except.error e => Except.error e
      | Option.none => Except.error "KeyError: missing run cache"

/-- `PypadsCache.run_get` from caches.py:165-167: `Cache.get(key)` with default None. -/
def run_get : Nat → MlCtx → String → Option Nat → Caches → Except String (V × Caches)
  | 0, _, _, _, _ => Except.error "RecursionError: maximum recursion depth exceeded"
  | fuel+1, ctx, key, rid, c =>
    match run_init fuel ctx rid c with
    | Except.error e => Except.error e
    | Except.ok (r, c2) =>
      match alookup r c2.runCaches with
      | some rc => Except.ok (Cache.get rc key V.none, c2)
      | Option.none => Except.error "KeyError: missing run cache"

end

/-- `PypadsCache.run_pop` from caches.py:157-159. -/
def run_pop (fuel : Nat) (ctx : MlCtx) (key : String) (rid : Option Nat) (default : V)
    (c : Caches) : Except String (V × Caches) :=
  match run_init fuel ctx rid c with
  | Except.error e => Except.error e
  | Except.ok (r, c2) =>
    match alookup r c2.runCaches with
    | some rc =>
      Except.ok ((Cache.pop rc key default).1,
        { c2 with runCaches := aset r (Cache.pop rc key default).2 c2.runCaches })
    | Option.none => Except.error "KeyError: missing run cache"

/-- `PypadsCache.run_clear` from caches.py:173-175. -/
def run_clear (fuel : Nat) (ctx : MlCtx) (rid : Option Nat) (c : Caches) : Except String Caches :=
  match run_init fuel ctx rid c with
  | Except.error e => Except.error e
  | Except.ok (r, c2) =>
    match alookup r c2.runCaches with
    | some rc => Except.ok { c2 with runCaches := aset r (Cache.clear rc) c2.runCaches }
    | Option.none => Except.error "KeyError: missing run cache"

/-- `PypadsCache.run_delete` from caches.py:177-179. -/
def run_delete (fuel : Nat) (ctx : MlCtx) (rid : Option Nat) (c : Caches) : Except String Caches :=
  match run_init fuel ctx rid c with
  | Except.error e => Except.error e
  | Except.ok (r, c2) => Except.ok { c2 with runCaches := aerase r c2.runCaches }

/-! ### Run lifecycle (`PyPadsApi`) -/

/-- Invoking one registered run function. The cleanup registered by
`register_cleanup_fn` executes `pads.cache.run_delete(run_id)` (caches.py:109-113);
a user callable either returns, raises an exception, or raises KeyboardInterrupt. -/
def execEntry (fuel : Nat) (ctx : MlCtx) (e : TDEntry) (c : Caches) : Except String Caches :=
  match e.act with
  | TDAct.user TDOutcome.ok => Except.ok c
  | TDAct.user (TDOutcome.raises m) => Except.error m
  | TDAct.user TDOutcome.interrupt => Except.error "KeyboardInterrupt"
  | TDAct.cleanup r => run_delete fuel ctx (some r) c

/-- The ordering by which run functions execute: ascending numeric order field. -/
def entryLE (a b : TDEntry) : Prop := a.order ≤ b.order

instance : DecidableRel entryLE := fun a b => Nat.decLe a.order b.order

instance : IsTotal TDEntry entryLE := ⟨fun a b => Nat.le_total a.order b.order⟩

instance : IsTrans TDEntry entryLE := ⟨fun _ _ _ => Nat.le_trans⟩

/-- `fns.sort(key=lambda f: f.order)` (api.py:420 and api.py:530): Python's list.sort
is a stable ascending sort, and any stable sort by the same key produces the same
list, so insertion sort models it exactly. -/
def sortEntries (l : List TDEntry) : List TDEntry :=
  List.insertionSort entryLE l

/-- The warning text logged by `end_run` when a teardown entry raises (api.py:537). -/
def failMsg (e : TDEntry) (m : String) : String :=
  "Failed running post run function " ++ e.fname ++ " because of exception: " ++ m

/-- The exception message a user entry raises, when it raises one. -/
def raisedMsg : TDAct → Option String
  | TDAct.user (TDOutcome.raises m) => some m
  | TDAct.user TDOutcome.interrupt => some "KeyboardInterrupt"
  | _ => Option.none

/-- The teardown loop of `PyPadsApi.end_run` (api.py:531-537): each function in the
sorted list is invoked; `(KeyboardInterrupt, Exception)` are caught and logged as a
warning naming the entry, and the loop continues. Returns the state, the names of
invoked entries in invocation order, and the warnings logged. -/
def teardownLoop (fuel : Nat) (ctx : MlCtx) :
    List TDEntry → Caches → List String → List String → Caches × List String × List String
  | [], c, ex, w => (c, ex, w)
  | e :: rest, c, ex, w =>
    match execEntry fuel ctx e c with
    | Except.ok c2 => teardownLoop fuel ctx rest c2 (ex ++ [e.fname]) w
    | Except.error m =>
      teardownLoop fuel ctx rest c (ex ++ [e.fname]) (w ++ [failMsg e m])

/-- `PyPadsApi.end_run` from api.py:515-546: flush the consolidated log when present,
fetch the teardown registry, sort ascending by order, invoke every entry with fault
isolation, then `mlflow.end_run()` pops the active run (scratch folder removal is
backend-side). Returns the new run context, the cache state, the invoked entry names
in order, and the warnings. -/
def end_run (fuel : Nat) (ctx : MlCtx) (c : Caches) :
    Except String (MlCtx × Caches × List String × List String) :=
  match mlflow_active_run ctx with
  | Option.none => Except.error "AttributeError: NoneType object has no attribute info"
  | some _ =>
    let c1 := match alookup "consolidated_dict" c.proc with
      | some _ => { c with arts := c.arts ++ ["consolidated_log"] }
      | Option.none => c
    match get_teardown_registry fuel ctx c1 with
    | Except.error e => Except.error e
    | Except.ok (_, reg, c2) =>
      match teardownLoop fuel ctx (sortEntries (reg.map Prod.snd)) c2 [] [] with
      | (c3, ex, w) => Except.ok ({ ctx with stack := ctx.stack.tail }, c3, ex, w)

/-- `PyPadsApi._get_setup_cache` from api.py:339-347: the process-wide "pre_run_fns"
cache, created on first use. -/
def get_setup_registry (c : Caches) : Except String (List (String × TDEntry) × Caches) :=
  match alookup "pre_run_fns" c.proc with
  | some (V.fnreg l) => Except.ok (l, c)
  | some _ => Except.error "TypeError: not a function registry"
  | Option.none => Except.ok ([], { c with proc := c.proc ++ [("pre_run_fns", V.fnreg [])] })

/-- The setup loop of `PyPadsApi.run_setups` (api.py:421-423): every entry is
callable and is invoked in order; there is no exception handling here, so a raising
entry propagates. -/
def setupLoop (fuel : Nat) (ctx : MlCtx) :
    List TDEntry → Caches → List String → Except String (Caches × List String)
  | [], c, ex => Except.ok (c, ex)
  | e :: rest, c, ex =>
    match execEntry fuel ctx e c with
    | Except.ok c2 => setupLoop fuel ctx rest c2 (ex ++ [e.fname])
    | Except.error m => Except.error m

/-- `PyPadsApi.run_setups` from api.py:414-423: collect the registered setup entries,
sort ascending by order, invoke each. -/
def run_setups (fuel : Nat) (ctx : MlCtx) (c : Caches) : Except String (Caches × List String) :=
  match get_setup_registry c with
  | Except.error e => Except.error e
  | Except.ok (reg, c1) => setupLoop fuel ctx (sortEntries (reg.map Prod.snd)) c1 []

/-- The full process state: the mlflow run context, the caches, and the id the
backend will assign to the next created run. -/
structure Pads where
  ml : MlCtx
  caches : Caches
  nextId : Nat

/-- `PyPadsApi.start_run` from api.py:144-162 in the form `intermediate_run` invokes
it (`run_id=None`, `nested=True`): `mlflow.start_run(nested=True)` pushes a fresh run
onto the active stack, then `run_setups` executes when the setups flag is set. -/
def start_run_nested (fuel : Nat) (setups : Bool) (s : Pads) : Except String (Nat × Pads) :=
  let nid := s.nextId
  let ml2 : MlCtx := { stack := nid :: s.ml.stack, known := s.ml.known ++ [nid] }
  if setups then
    match run_setups fuel ml2 s.caches with
    | Except.error e => Except.error e
    | Except.ok (c2, _) => Except.ok (nid, { ml := ml2, caches := c2, nextId := nid + 1 })
  else Except.ok (nid, { ml := ml2, caches := s.caches, nextId := nid + 1 })

/-- The entry half of `PyPadsApi.intermediate_run` (api.py:315-330): capture the
enclosing run, start a nested run, and stash the enclosing run object in the nested
run's run cache under "enclosing_run". -/
def intermediate_enter (fuel : Nat) (setups : Bool) (s : Pads) :
    Except String (Option Nat × Nat × Pads) :=
  let enclosing := mlflow_active_run s.ml
  match start_run_nested fuel setups s with
  | Except.error e => Except.error e
  | Except.ok (nid, s2) =>
    match run_add fuel s2.ml "enclosing_run" (V.runRef enclosing) Option.none s2.caches with
    | Except.error e => Except.error e
    | Except.ok c2 => Except.ok (enclosing, nid, { s2 with caches := c2 })

/-- The finally block of `PyPadsApi.intermediate_run` (api.py:331-337), which Python
executes on every exit of the with-scope, normal or exceptional: when the active run
is no longer the captured enclosing run, `end_run` is invoked and the then-active
run's cache is cleared and deleted; otherwise `mlflow.start_run` resumes the
enclosing run (modelled from the spec: resuming a captured run by id makes it the
active run again). The `is` identity test is modelled as equality of run ids. -/
def intermediate_exit (fuel : Nat) (enclosing : Option Nat) (s : Pads) : Except String Pads :=
  if mlflow_active_run s.ml ≠ enclosing then
    match end_run fuel s.ml s.caches with
    | Except.error e => Except.error e
    | Except.ok (ml2, c2, _, _) =>
      match run_clear fuel ml2 Option.none c2 with
      | Except.error e => Except.error e
      | Except.ok c3 =>
        match run_delete fuel ml2 Option.none c3 with
        | Except.error e => Except.error e
        | Except.ok c4 => Except.ok { s with ml := ml2, caches := c4 }
  else
    match enclosing with
    | some r =>
      Except.ok { s with ml := { s.ml with
        stack := if s.ml.stack.head? = some r then s.ml.stack else r :: s.ml.stack } }
    | Option.none => Except.error "AttributeError: NoneType object has no attribute info"

/-- The contents of a run cache right after lazy creation by `run_init`: the freshly
created "post_run_fns" registry Cache holding only the registered cleanup entry. -/
def cleanupCache (r : Nat) : Cache :=
  [("post_run_fns", V.fnreg [("cache_cleanup", cleanupEntry r)])]

/-- The nested run's run cache after `intermediate_run` stashed the enclosing run:
the cleanup registry plus the "enclosing_run" entry. -/
def nestedCache (r0 nid : Nat) : Cache :=
  cleanupCache nid ++ [("enclosing_run", V.runRef (some r0))]

/-- Constructor shorthand for `MlCtx`. -/
abbrev mkMl (stack known : List Nat) : MlCtx :=
  { stack := stack, known := known }

/-- Constructor shorthand for `Caches`. -/
abbrev mkCaches (R : List (Nat × Cache)) (P : Cache) (A : List String) : Caches :=
  { runCaches := R, proc := P, arts := A }

/-- Constructor shorthand for `Pads`. -/
abbrev mkPads (ml : MlCtx) (c : Caches) (nextId : Nat) : Pads :=
  { ml := ml, caches := c, nextId := nextId }

/-- A concrete three-entry teardown registry, orders 1, 2, 3, the second raising. -/
def w6reg : List (String × TDEntry) :=
  [("a", { fname := "a", order := 1, act := TDAct.user TDOutcome.ok }),
   ("b", { fname := "b", order := 2, act := TDAct.user (TDOutcome.raises "boom") }),
   ("c", { fname := "c", order := 3, act := TDAct.user TDOutcome.ok })]

/-- A cache state for run 7 whose teardown registry is `w6reg`. -/
def w6caches : Caches :=
  { runCaches := [(7, [("post_run_fns", V.fnreg w6reg)])], proc := [], arts := [] }

/-- A concrete setup registry with orders [5, 1, 3]. -/
def w7reg : List (String × TDEntry) :=
  [("a", { fname := "a", order := 5, act := TDAct.user TDOutcome.ok }),
   ("b", { fname := "b", order := 1, act := TDAct.user TDOutcome.ok }),
   ("c", { fname := "c", order := 3, act := TDAct.user TDOutcome.ok })]

/-- A process state whose setup registry is `w7reg` with run 7 active and an empty
teardown registry. -/
def w7caches : Caches :=
  { runCaches := [(7, [("post_run_fns", V.fnreg [])])],
    proc := [("pre_run_fns", V.fnreg w7reg)], arts := [] }

/-! ### Association-list lemmas -/

@[simp]
theorem alookup_nil {α β : Type} [DecidableEq α] (k : α) :
    alookup k ([] : List (α × β)) = Option.none := rfl

@[simp]
theorem alookup_cons {α β : Type} [DecidableEq α] (k k2 : α) (v2 : β) (rest : List (α × β)) :
    alookup k ((k2, v2) :: rest) = if k2 = k then some v2 else alookup k rest := rfl

theorem amem_false_iff {α β : Type} [DecidableEq α] (k : α) (l : List (α × β)) :
    amem k l = false ↔ alookup k l = Option.none := by
  unfold amem
  cases alookup k l <;> simp

theorem amem_true_iff {α β : Type} [DecidableEq α] (k : α) (l : List (α × β)) :
    amem k l = true ↔ ∃ v, alookup k l = some v := by
  unfold amem
  cases alookup k l <;> simp

theorem alookup_append_of_none {α β : Type} [DecidableEq α] {k : α} {l1 : List (α × β)}
    (l2 : List (α × β)) (h : alookup k l1 = Option.none) :
    alookup k (l1 ++ l2) = alookup k l2 := by
  induction l1 with
  | nil => rfl
  | cons p rest ih =>
    obtain ⟨k2, v2⟩ := p
    by_cases hk : k2 = k
    · simp [hk] at h
    · simp [hk] at h ⊢
      exact ih h

theorem aset_append_of_none {α β : Type} [DecidableEq α] {k : α} {l1 : List (α × β)}
    (v : β) (l2 : List (α × β)) (h : alookup k l1 = Option.none) :
    aset k v (l1 ++ l2) = l1 ++ aset k v l2 := by
  induction l1 with
  | nil => rfl
  | cons p rest ih =>
    obtain ⟨k2, v2⟩ := p
    by_cases hk : k2 = k
    · simp [hk] at h
    · simp [hk] at h
      simp [aset, hk, ih h]

theorem aerase_append_of_none {α β : Type} [DecidableEq α] {k : α} {l1 : List (α × β)}
    (l2 : List (α × β)) (h : alookup k l1 = Option.none) :
    aerase k (l1 ++ l2) = l1 ++ aerase k l2 := by
  induction l1 with
  | nil => rfl
  | cons p rest ih =>
    obtain ⟨k2, v2⟩ := p
    by_cases hk : k2 = k
    · simp [hk] at h
    · simp [hk] at h
      simp [aerase, hk, ih h]

@[simp]
theorem alookup_aset_self {α β : Type} [DecidableEq α] (k : α) (v : β) (l : List (α × β)) :
    alookup k (aset k v l) = some v := by
  induction l with
  | nil => simp [aset]
  | cons p rest ih =>
    obtain ⟨k2, v2⟩ := p
    by_cases hk : k2 = k
    · simp [aset, hk]
    · simp [aset, hk, ih]

theorem alookup_aset_ne {α β : Type} [DecidableEq α] {k1 k2 : α} (v : β) (l : List (α × β))
    (h : k1 ≠ k2) : alookup k2 (aset k1 v l) = alookup k2 l := by
  induction l with
  | nil => simp [aset, h]
  | cons p rest ih =>
    obtain ⟨k3, v3⟩ := p
    by_cases hk : k3 = k1
    · subst hk
      simp [aset, h]
    · simp [aset, hk, ih]

theorem alookup_aerase_ne {α β : Type} [DecidableEq α] {k1 k2 : α} (l : List (α × β))
    (h : k1 ≠ k2) : alookup k2 (aerase k1 l) = alookup k2 l := by
  induction l with
  | nil => rfl
  | cons p rest ih =>
    obtain ⟨k3, v3⟩ := p
    by_cases hk : k3 = k1
    · subst hk
      simp [aerase, h]
    · simp [aerase, hk, ih]

/-! ### Claim C1 -/

/-- C1: the claim states that merging two caches that both hold a list under key
"k" concatenates the lists, A's elements first. The code instead stores the return
value of `list.extend` — Python None — for the first cache's list and then fails
with an AttributeError on the second, both via `cache_merge` and via `Cache.merge`
which delegates to it. -/
theorem c1_merge_lists_attribute_error :
    Cache.merge 9 [("k", V.list [V.nat 1])] [("k", V.list [V.nat 2])]
        = Except.error "AttributeError: object has no attribute extend" ∧
    cache_merge 9 [[("k", V.list [V.nat 1])], [("k", V.list [V.nat 2])]]
        = Except.error "AttributeError: object has no attribute extend" := by
  exact ⟨rfl, rfl⟩

/-! ### Claim C2 -/

/-- C2: the claim states that set values under the same key are unioned with
already-present elements merged into a single element. The code instead reaches
`s.pop(v)` for an already-present element, and `set.pop` accepts no argument, so the
merge raises a TypeError instead of producing the union. -/
theorem c2_merge_set_duplicate_type_error :
    cache_merge 9 [[("k", V.set [V.nat 1])], [("k", V.set [V.nat 1])]]
        = Except.error "TypeError: pop takes no arguments" ∧
    Cache.merge 9 [("k", V.set [V.nat 1])] [("k", V.set [V.nat 1])]
        = Except.error "TypeError: pop takes no arguments" := by
  exact ⟨rfl, rfl⟩

/-! ### Claim C4 -/

/-- C4: the meta sidecar for key "acc" is written under the deterministic name
"acc.meta.json" (write default `FileFormats.json`), but `metric_meta` reads back
"acc.meta.yaml" (read default `FileFormats.yaml`), so the write-then-read round-trip
on the name fails: the two deterministic names differ. -/
theorem c4_meta_name_roundtrip_mismatch :
    metric_meta_written_name "acc" = "acc.meta.json" ∧
    metric_meta_read_name "acc" = "acc.meta.yaml" ∧
    metric_meta_written_name "acc" ≠ metric_meta_read_name "acc" := by
  refine ⟨rfl, rfl, ?_⟩
  decide

/-! ### Claim C9 -/

/-- C9 counterexample: the claim states that when the key exists with a
non-dictionary value, the new value simply replaces it without error; but adding a
dict value over an existing scalar invokes `5.update(...)`, an AttributeError. -/
theorem c9_add_dict_over_scalar_raises :
    Cache.add [("k", V.nat 5)] "k" (V.dict [("a", V.nat 1)])
        = Except.error "AttributeError: object has no attribute update" := by
  rfl

/-- C9 (amended): `add(key, value)` inserts when the key is absent; when the key
exists and the new value is a dict, the existing value's update method is invoked —
merging key-by-key when the existing value is a dict, adding the dict's keys as
elements when it is a set, and raising an AttributeError for any other existing
value; when the new value is not a dict it replaces the existing value in place. -/
theorem c9_add_characterization (c : Cache) (key : String) (value : V) :
    (amem key c = false → Cache.add c key value = Except.ok (c ++ [(key, value)])) ∧
    (∀ d2 d1, value = V.dict d2 → alookup key c = some (V.dict d1) →
        Cache.add c key value = Except.ok (aset key (V.dict (pupdate d1 d2)) c)) ∧
    (∀ d2 s1, value = V.dict d2 → alookup key c = some (V.set s1) →
        Cache.add c key value = Except.ok (aset key
          (V.set (s1 ++ (d2.map (fun kv => V.str kv.1)).filter (fun v => !setMem v s1))) c)) ∧
    (∀ d2 old, value = V.dict d2 → alookup key c = some old →
        (∀ d1, old ≠ V.dict d1) → (∀ s1, old ≠ V.set s1) →
        Cache.add c key value = Except.error "AttributeError: object has no attribute update") ∧
    ((∀ d2, value ≠ V.dict d2) → amem key c = true →
        Cache.add c key value = Except.ok (aset key value c)) := by
  refine ⟨?_, ?_, ?_, ?_, ?_⟩
  · intro h
    simp [Cache.add, h]
  · intro d2 d1 hv hl
    have hm : amem key c = true := (amem_true_iff key c).mpr ⟨_, hl⟩
    simp [Cache.add, hm, hv, hl]
  · intro d2 s1 hv hl
    have hm : amem key c = true := (amem_true_iff key c).mpr ⟨_, hl⟩
    simp [Cache.add, hm, hv, hl]
  · intro d2 old hv hl hnd hns
    have hm : amem key c = true := (amem_true_iff key c).mpr ⟨_, hl⟩
    cases old with
    | dict d1 => exact absurd rfl (hnd d1)
    | set s1 => exact absurd rfl (hns s1)
    | none => simp [Cache.add, hm, hv, hl]
    | nat n => simp [Cache.add, hm, hv, hl]
    | str s => simp [Cache.add, hm, hv, hl]
    | list l => simp [Cache.add, hm, hv, hl]
    | cache cc => simp [Cache.add, hm, hv, hl]
    | runRef r => simp [Cache.add, hm, hv, hl]
    | fnreg l => simp [Cache.add, hm, hv, hl]
  · intro hnv hm
    cases value with
    | dict d2 => exact absurd rfl (hnv d2)
    | none => simp [Cache.add, hm]
    | nat n => simp [Cache.add, hm]
    | str s => simp [Cache.add, hm]
    | list l => simp [Cache.add, hm]
    | set s => simp [Cache.add, hm]
    | cache cc => simp [Cache.add, hm]
    | runRef r => simp [Cache.add, hm]
    | fnreg l => simp [Cache.add, hm]

/-- C9 witness: inserting into an empty cache, via the first conjunct. -/
theorem c9_add_witness :
    Cache.add [] "k" (V.nat 1) = Except.ok [("k", V.nat 1)] :=
  (c9_add_characterization [] "k" (V.nat 1)).1 rfl

/-! ### Claim C10 -/

/-- C10: `Cache.pop` on an absent key returns None and leaves the cache unchanged,
ignoring the caller-supplied default (the result does not depend on it); on a present
key it returns the stored value (so the default is unreachable there too) and removes
the entry. -/
theorem c10_pop_characterization (c : Cache) (key : String) (d1v d2v : V) :
    (alookup key c = Option.none → Cache.pop c key d1v = (V.none, c)) ∧
    (∀ v, alookup key c = some v → Cache.pop c key d1v = (v, aerase key c)) ∧
    Cache.pop c key d1v = Cache.pop c key d2v := by
  refine ⟨?_, ?_, ?_⟩
  · intro h
    have hm : amem key c = false := (amem_false_iff key c).mpr h
    simp [Cache.pop, hm]
  · intro v h
    have hm : amem key c = true := (amem_true_iff key c).mpr ⟨_, h⟩
    simp [Cache.pop, hm, h]
  · cases h : alookup key c with
    | none =>
      have hm : amem key c = false := (amem_false_iff key c).mpr h
      simp [Cache.pop, hm]
    | some v =>
      have hm : amem key c = true := (amem_true_iff key c).mpr ⟨_, h⟩
      simp [Cache.pop, hm, h]

/-- C10 witness: popping an absent key with a non-None default returns None and the
unchanged cache, via the first conjunct. -/
theorem c10_pop_witness :
    Cache.pop [("a", V.nat 1)] "k" (V.nat 7) = (V.none, [("a", V.nat 1)]) :=
  (c10_pop_characterization [("a", V.nat 1)] "k" (V.nat 7) (V.nat 8)).1 rfl

/-! ### Run registry lemmas -/

theorem run_init_cached (fuel : Nat) (ctx : MlCtx) (c : Caches) (r : Nat)
    (hk : r ∈ ctx.known) (hc : amem r c.runCaches = true) :
    run_init (fuel+1) ctx (some r) c = Except.ok (r, c) := by
  simp [run_init, get_run, mlflow_get_run, hk, hc]

theorem run_init_active_cached (fuel : Nat) (ctx : MlCtx) (c : Caches) (r : Nat)
    (hact : mlflow_active_run ctx = some r) (hc : amem r c.runCaches = true) :
    run_init (fuel+1) ctx Option.none c = Except.ok (r, c) := by
  simp [run_init, get_run, hact, hc]

theorem run_get_cached (fuel : Nat) (ctx : MlCtx) (c : Caches) (r : Nat) (key : String)
    (rc : Cache) (hk : r ∈ ctx.known) (hrc : alookup r c.runCaches = some rc) :
    run_get (fuel+2) ctx key (some r) c = Except.ok (Cache.get rc key V.none, c) := by
  have hm : amem r c.runCaches = true := (amem_true_iff _ _).mpr ⟨_, hrc⟩
  simp [run_get, run_init_cached fuel ctx c r hk hm, hrc]

/-! ### Claim C3 -/

/-- C3: with no active run and no explicit run id, every run-scoped operation of the
registry (`run_init`, `run_add`, `run_get`, `run_pop`, `run_exists`, `run_clear`,
`run_delete`) fails with the no-active-run ValueError raised by `run_init`, and
constructing a `PypadsRunCache` with no resolvable run fails with its own
ValueError, so no run cache ever exists without a valid run. -/
theorem c3_no_active_run_errors (fuel : Nat) (ctx : MlCtx) (c : Caches)
    (key : String) (value default : V) (h : ctx.stack = []) :
    run_init (fuel+2) ctx Option.none c
        = Except.error "No run is active. Couldn't init run cache." ∧
    run_add (fuel+2) ctx key value Option.none c
        = Except.error "No run is active. Couldn't init run cache." ∧
    run_get (fuel+2) ctx key Option.none c
        = Except.error "No run is active. Couldn't init run cache." ∧
    run_pop (fuel+2) ctx key Option.none default c
        = Except.error "No run is active. Couldn't init run cache." ∧
    run_exists (fuel+2) ctx key Option.none c
        = Except.error "No run is active. Couldn't init run cache." ∧
    run_clear (fuel+2) ctx Option.none c
        = Except.error "No run is active. Couldn't init run cache." ∧
    run_delete (fuel+2) ctx Option.none c
        = Except.error "No run is active. Couldn't init run cache." ∧
    pypadsRunCache_init Option.none ctx
        = Except.error "No active run for run cache found." := by
  have hact : mlflow_active_run ctx = Option.none := by
    simp [mlflow_active_run, h]
  have hinit : ∀ f : Nat, run_init (f+1) ctx Option.none c
      = Except.error "No run is active. Couldn't init run cache." := by
    intro f
    simp [run_init, get_run, hact]
  refine ⟨hinit (fuel+1), ?_, ?_, ?_, ?_, ?_, ?_, ?_⟩
  · simp [run_add, hinit]
  · simp [run_get, hinit]
  · simp [run_pop, hinit (fuel+1)]
  · simp [run_exists, hinit]
  · simp [run_clear, hinit (fuel+1)]
  · simp [run_delete, hinit (fuel+1)]
  · simp [pypadsRunCache_init, hact]

/-- C3 witness: the empty process state with no active run. -/
theorem c3_no_active_run_witness :
    run_init 2 { stack := [], known := [] } Option.none { runCaches := [], proc := [], arts := [] }
        = Except.error "No run is active. Couldn't init run cache." :=
  (c3_no_active_run_errors 0 { stack := [], known := [] }
    { runCaches := [], proc := [], arts := [] } "x" V.none V.none rfl).1

/-! ### Claim C8 -/

/-- C8: for two distinct, already-initialized runs, writing into R1's run cache via
`run_add` does not change what `run_get` returns for R2 (R2 never observes R1's
value), and `run_init` on an already-cached run id returns without creating a second
run cache — the registry state is unchanged, keeping at most one run cache per run
identifier. -/
theorem c8_run_cache_isolation (fuel : Nat) (ctx : MlCtx) (c : Caches) (r1 r2 : Nat)
    (key : String) (v : V) (h12 : r1 ≠ r2)
    (h1c : amem r1 c.runCaches = true) (h2c : amem r2 c.runCaches = true)
    (h1k : r1 ∈ ctx.known) (h2k : r2 ∈ ctx.known) :
    (∀ c2, run_add (fuel+2) ctx key v (some r1) c = Except.ok c2 →
        (run_get (fuel+2) ctx key (some r2) c2).map Prod.fst
          = (run_get (fuel+2) ctx key (some r2) c).map Prod.fst) ∧
    run_init (fuel+2) ctx (some r1) c = Except.ok (r1, c) := by
  refine ⟨?_, run_init_cached (fuel+1) ctx c r1 h1k h1c⟩
  intro c2 hadd
  obtain ⟨rc1, hrc1⟩ := (amem_true_iff r1 c.runCaches).mp h1c
  obtain ⟨rc0, hrc0⟩ := (amem_true_iff r2 c.runCaches).mp h2c
  simp only [run_add, run_init_cached fuel ctx c r1 h1k h1c, hrc1] at hadd
  cases hca : Cache.add rc1 key v with
  | error e =>
    rw [hca] at hadd
    simp at hadd
  | ok rc2 =>
    rw [hca] at hadd
    simp only [Except.ok.injEq] at hadd
    subst hadd
    have hl2 : alookup r2 (aset r1 rc2 c.runCaches) = some rc0 := by
      rw [alookup_aset_ne rc2 c.runCaches h12, hrc0]
    rw [run_get_cached fuel ctx c r2 key rc0 h2k hrc0,
      run_get_cached fuel ctx { c with runCaches := aset r1 rc2 c.runCaches } r2 key rc0 h2k hl2]
    simp [Except.map]

/-- C8 witness: two initialized runs 1 and 2; adding under run 1 leaves run 2's
read unchanged. -/
theorem c8_run_cache_isolation_witness :
    (run_get 2 { stack := [], known := [1, 2] } "x" (some 2)
        { runCaches := [(1, [("x", V.nat 42)]), (2, [])], proc := [], arts := [] }).map Prod.fst
      = (run_get 2 { stack := [], known := [1, 2] } "x" (some 2)
        { runCaches := [(1, []), (2, [])], proc := [], arts := [] }).map Prod.fst :=
  (c8_run_cache_isolation 0 { stack := [], known := [1, 2] }
      { runCaches := [(1, []), (2, [])], proc := [], arts := [] } 1 2 "x" (V.nat 42)
      (by decide) rfl rfl (by decide) (by decide)).1
    { runCaches := [(1, [("x", V.nat 42)]), (2, [])], proc := [], arts := [] } rfl

/-! ### Loop and sorting lemmas -/

theorem sortEntries_sorted (l : List TDEntry) : List.Sorted entryLE (sortEntries l) :=
  List.sorted_insertionSort entryLE l

theorem sortEntries_perm (l : List TDEntry) : (sortEntries l).Perm l :=
  List.perm_insertionSort entryLE l

theorem setupLoop_all_ok (fuel : Nat) (ctx : MlCtx) :
    ∀ (l : List TDEntry) (c : Caches) (ex : List String),
      (∀ e ∈ l, e.act = TDAct.user TDOutcome.ok) →
      setupLoop fuel ctx l c ex = Except.ok (c, ex ++ l.map TDEntry.fname) := by
  intro l
  induction l with
  | nil =>
    intro c ex h
    simp [setupLoop]
  | cons e rest ih =>
    intro c ex h
    have he : e.act = TDAct.user TDOutcome.ok := h e (by simp)
    have hrest : ∀ e2 ∈ rest, e2.act = TDAct.user TDOutcome.ok :=
      fun e2 h2 => h e2 (by simp [h2])
    simp [setupLoop, execEntry, he, ih c (ex ++ [e.fname]) hrest]

theorem teardownLoop_executed (fuel : Nat) (ctx : MlCtx) :
    ∀ (l : List TDEntry) (c : Caches) (ex w : List String),
      (teardownLoop fuel ctx l c ex w).2.1 = ex ++ l.map TDEntry.fname := by
  intro l
  induction l with
  | nil =>
    intro c ex w
    simp [teardownLoop]
  | cons e rest ih =>
    intro c ex w
    cases hx : execEntry fuel ctx e c with
    | ok c2 => simp [teardownLoop, hx, ih]
    | error m => simp [teardownLoop, hx, ih]

theorem teardownLoop_warn_mono (fuel : Nat) (ctx : MlCtx) :
    ∀ (l : List TDEntry) (c : Caches) (ex w : List String) (x : String),
      x ∈ w → x ∈ (teardownLoop fuel ctx l c ex w).2.2 := by
  intro l
  induction l with
  | nil =>
    intro c ex w x hx
    simpa [teardownLoop] using hx
  | cons e rest ih =>
    intro c ex w x hx
    cases hex : execEntry fuel ctx e c with
    | ok c2 =>
      simp only [teardownLoop, hex]
      exact ih c2 (ex ++ [e.fname]) w x hx
    | error m =>
      simp only [teardownLoop, hex]
      exact ih c (ex ++ [e.fname]) (w ++ [failMsg e m]) x (by simp [hx])

theorem execEntry_of_raisedMsg (fuel : Nat) (ctx : MlCtx) (e : TDEntry) (c : Caches)
    (m : String) (h : raisedMsg e.act = some m) :
    execEntry fuel ctx e c = Except.error m := by
  cases hact : e.act with
  | cleanup r => rw [hact] at h; simp [raisedMsg] at h
  | user outcome =>
    cases outcome with
    | ok => rw [hact] at h; simp [raisedMsg] at h
    | raises m2 =>
      rw [hact] at h
      simp only [raisedMsg, Option.some.injEq] at h
      subst h
      simp [execEntry, hact]
    | interrupt =>
      rw [hact] at h
      simp only [raisedMsg, Option.some.injEq] at h
      subst h
      simp [execEntry, hact]

theorem teardownLoop_warned (fuel : Nat) (ctx : MlCtx) :
    ∀ (l : List TDEntry) (c : Caches) (ex w : List String) (e : TDEntry) (m : String),
      e ∈ l → raisedMsg e.act = some m →
      failMsg e m ∈ (teardownLoop fuel ctx l c ex w).2.2 := by
  intro l
  induction l with
  | nil =>
    intro c ex w e m he hm
    simp at he
  | cons e2 rest ih =>
    intro c ex w e m he hm
    rcases List.mem_cons.mp he with he1 | he2
    · subst he1
      have hx := execEntry_of_raisedMsg fuel ctx e c m hm
      simp only [teardownLoop, hx]
      exact teardownLoop_warn_mono fuel ctx rest c (ex ++ [e.fname]) (w ++ [failMsg e m])
        (failMsg e m) (by simp)
    · cases hx : execEntry fuel ctx e2 c with
      | ok c2 =>
        simp only [teardownLoop, hx]
        exact ih c2 (ex ++ [e2.fname]) w e m he2 hm
      | error m2 =>
        simp only [teardownLoop, hx]
        exact ih c (ex ++ [e2.fname]) (w ++ [failMsg e2 m2]) e m he2 hm

/-! ### Evaluating `get_teardown_registry` and `end_run` on a run with a registry -/

theorem get_teardown_registry_present (fuel : Nat) (ctx : MlCtx) (c : Caches) (r : Nat)
    (rc : Cache) (treg : List (String × TDEntry))
    (hact : mlflow_active_run ctx = some r)
    (hrc : alookup r c.runCaches = some rc)
    (ht : alookup "post_run_fns" rc = some (V.fnreg treg)) :
    get_teardown_registry (fuel+3) ctx c = Except.ok (TDLoc.run r, treg, c) := by
  have hm : amem r c.runCaches = true := (amem_true_iff _ _).mpr ⟨_, hrc⟩
  have hb : Cache.exists rc "post_run_fns" = true := by
    simp only [Cache.exists]
    exact (amem_true_iff _ _).mpr ⟨_, ht⟩
  have hex : run_exists (fuel+2) ctx "post_run_fns" Option.none c = Except.ok (true, c) := by
    simp [run_exists, run_init_active_cached fuel ctx c r hact hm, hrc, hb]
  have hget : run_get (fuel+2) ctx "post_run_fns" Option.none c
      = Except.ok (V.fnreg treg, c) := by
    simp [run_get, run_init_active_cached fuel ctx c r hact hm, hrc, Cache.get, ht]
  simp [get_teardown_registry, hact, hex, hget]

theorem end_run_executed (fuel : Nat) (ctx : MlCtx) (c : Caches) (r : Nat)
    (rc : Cache) (treg : List (String × TDEntry))
    (hact : mlflow_active_run ctx = some r)
    (hrc : alookup r c.runCaches = some rc)
    (ht : alookup "post_run_fns" rc = some (V.fnreg treg)) :
    ∃ c3 w, end_run (fuel+3) ctx c
        = Except.ok ({ ctx with stack := ctx.stack.tail }, c3,
            (sortEntries (treg.map Prod.snd)).map TDEntry.fname, w) ∧
      (∀ e m, e ∈ sortEntries (treg.map Prod.snd) → raisedMsg e.act = some m →
          failMsg e m ∈ w) := by
  cases hcd : alookup "consolidated_dict" c.proc with
  | none =>
    have hreg := get_teardown_registry_present fuel ctx c r rc treg hact hrc ht
    rcases hlp : teardownLoop (fuel+3) ctx (sortEntries (treg.map Prod.snd)) c [] []
      with ⟨c3, ex, w⟩
    have hex : ex = (sortEntries (treg.map Prod.snd)).map TDEntry.fname := by
      have h1 := teardownLoop_executed (fuel+3) ctx (sortEntries (treg.map Prod.snd)) c [] []
      rw [hlp] at h1
      simpa using h1
    refine ⟨c3, w, ?_, ?_⟩
    · simp [end_run, hact, hcd, hreg, hlp, hex]
    · intro e m he hm
      have h2 := teardownLoop_warned (fuel+3) ctx (sortEntries (treg.map Prod.snd)) c [] []
        e m he hm
      rw [hlp] at h2
      exact h2
  | some v =>
    have hreg := get_teardown_registry_present fuel ctx
      { c with arts := c.arts ++ ["consolidated_log"] } r rc treg hact hrc ht
    rcases hlp : teardownLoop (fuel+3) ctx (sortEntries (treg.map Prod.snd))
        { c with arts := c.arts ++ ["consolidated_log"] } [] [] with ⟨c3, ex, w⟩
    have hex : ex = (sortEntries (treg.map Prod.snd)).map TDEntry.fname := by
      have h1 := teardownLoop_executed (fuel+3) ctx (sortEntries (treg.map Prod.snd))
        { c with arts := c.arts ++ ["consolidated_log"] } [] []
      rw [hlp] at h1
      simpa using h1
    refine ⟨c3, w, ?_, ?_⟩
    · simp [end_run, hact, hcd, hreg, hlp, hex]
    · intro e m he hm
      have h2 := teardownLoop_warned (fuel+3) ctx (sortEntries (treg.map Prod.snd))
        { c with arts := c.arts ++ ["consolidated_log"] } [] [] e m he hm
      rw [hlp] at h2
      exact h2

/-! ### Evaluating the lazy-creation path of `run_init` -/

theorem alookup_append_self {α β : Type} [DecidableEq α] {k : α} {l : List (α × β)}
    (v : β) (h : alookup k l = Option.none) : alookup k (l ++ [(k, v)]) = some v := by
  rw [alookup_append_of_none _ h]
  simp

theorem aset_append_self {α β : Type} [DecidableEq α] {k : α} {l : List (α × β)}
    (v w : β) (h : alookup k l = Option.none) :
    aset k w (l ++ [(k, v)]) = l ++ [(k, w)] := by
  rw [aset_append_of_none _ _ h]
  simp [aset]

theorem aerase_append_self {α β : Type} [DecidableEq α] {k : α} {l : List (α × β)}
    (v : β) (h : alookup k l = Option.none) : aerase k (l ++ [(k, v)]) = l := by
  rw [aerase_append_of_none _ h]
  simp [aerase]

theorem run_init_create_active (fuel : Nat) (ctx : MlCtx) (c : Caches) (r : Nat)
    (hact : mlflow_active_run ctx = some r)
    (hc : amem r c.runCaches = false) :
    run_init (fuel+6) ctx Option.none c
      = Except.ok (r, { c with runCaches := c.runCaches ++ [(r, cleanupCache r)] }) := by
  have hnone : alookup r c.runCaches = Option.none := (amem_false_iff _ _).mp hc
  have hm1 : alookup r (c.runCaches ++ [(r, ([] : Cache))]) = some [] :=
    alookup_append_self _ hnone
  have hmem1 : amem r (c.runCaches ++ [(r, ([] : Cache))]) = true :=
    (amem_true_iff _ _).mpr ⟨_, hm1⟩
  have hinit1 : run_init (fuel+2) ctx Option.none
      { c with runCaches := c.runCaches ++ [(r, [])] }
      = Except.ok (r, { c with runCaches := c.runCaches ++ [(r, [])] }) :=
    run_init_active_cached (fuel+1) ctx _ r hact hmem1
  have hex : run_exists (fuel+3) ctx "post_run_fns" Option.none
      { c with runCaches := c.runCaches ++ [(r, [])] }
      = Except.ok (false, { c with runCaches := c.runCaches ++ [(r, [])] }) := by
    simp [run_exists, hinit1, hm1, Cache.exists, amem]
  have haset1 : aset r [("post_run_fns", V.fnreg [])] (c.runCaches ++ [(r, [])])
      = c.runCaches ++ [(r, [("post_run_fns", V.fnreg [])])] :=
    aset_append_self _ _ hnone
  have haddpf : run_add (fuel+3) ctx "post_run_fns" (V.fnreg []) Option.none
      { c with runCaches := c.runCaches ++ [(r, [])] }
      = Except.ok { c with runCaches := c.runCaches ++ [(r, [("post_run_fns", V.fnreg [])])] } := by
    simp [run_add, hinit1, hm1, Cache.add, amem, haset1]
  have hm2 : alookup r (c.runCaches ++ [(r, [("post_run_fns", V.fnreg [])])])
      = some [("post_run_fns", V.fnreg [])] := alookup_append_self _ hnone
  have hmem2 : amem r (c.runCaches ++ [(r, [("post_run_fns", V.fnreg [])])]) = true :=
    (amem_true_iff _ _).mpr ⟨_, hm2⟩
  have hinit2 : run_init (fuel+2) ctx Option.none
      { c with runCaches := c.runCaches ++ [(r, [("post_run_fns", V.fnreg [])])] }
      = Except.ok (r, { c with runCaches := c.runCaches ++ [(r, [("post_run_fns", V.fnreg [])])] }) :=
    run_init_active_cached (fuel+1) ctx _ r hact hmem2
  have hget : run_get (fuel+3) ctx "post_run_fns" Option.none
      { c with runCaches := c.runCaches ++ [(r, [("post_run_fns", V.fnreg [])])] }
      = Except.ok (V.fnreg [],
          { c with runCaches := c.runCaches ++ [(r, [("post_run_fns", V.fnreg [])])] }) := by
    simp [run_get, hinit2, hm2, Cache.get]
  have hloc : get_teardown_registry (fuel+4) ctx
      { c with runCaches := c.runCaches ++ [(r, [])] }
      = Except.ok (TDLoc.run r, [],
          { c with runCaches := c.runCaches ++ [(r, [("post_run_fns", V.fnreg [])])] }) := by
    simp [get_teardown_registry, hact, hex, haddpf, hget]
  have haset2 : aset r (cleanupCache r) (c.runCaches ++ [(r, [("post_run_fns", V.fnreg [])])])
      = c.runCaches ++ [(r, cleanupCache r)] := aset_append_self _ _ hnone
  have hput : put_teardown_registry (TDLoc.run r) [("cache_cleanup", cleanupEntry r)]
      { c with runCaches := c.runCaches ++ [(r, [("post_run_fns", V.fnreg [])])] }
      = { c with runCaches := c.runCaches ++ [(r, cleanupCache r)] } := by
    simp [put_teardown_registry, hm2]
    rw [show aset "post_run_fns" (V.fnreg [("cache_cleanup", cleanupEntry r)])
        [("post_run_fns", V.fnreg [])] = cleanupCache r from rfl]
    exact haset2
  have hreg : register_post_fn (fuel+5) ctx "cache_cleanup" (cleanupEntry r)
      { c with runCaches := c.runCaches ++ [(r, [])] }
      = Except.ok { c with runCaches := c.runCaches ++ [(r, cleanupCache r)] } := by
    simp [register_post_fn, hloc, amem, hput]
  simp [run_init, get_run, hact, hc, hreg]

/-- `run_setups` on a process cache without a "pre_run_fns" registry creates the
empty registry and runs nothing. -/
theorem run_setups_fresh (fuel : Nat) (ctx : MlCtx) (c : Caches)
    (h : alookup "pre_run_fns" c.proc = Option.none) :
    run_setups fuel ctx c
      = Except.ok ({ c with proc := c.proc ++ [("pre_run_fns", V.fnreg [])] }, []) := by
  simp [run_setups, get_setup_registry, h, sortEntries, List.insertionSort, setupLoop]

theorem intermediate_enter_eval (fuel r0 nid : Nat) (R : List (Nat × Cache))
    (P : Cache) (A : List String) (kn : List Nat)
    (h1 : amem nid R = false)
    (h4 : alookup "pre_run_fns" P = Option.none) :
    intermediate_enter (fuel+9) true (mkPads (mkMl [r0] kn) (mkCaches R P A) nid)
      = Except.ok (some r0, nid,
          mkPads (mkMl [nid, r0] (kn ++ [nid]))
            (mkCaches (R ++ [(nid, nestedCache r0 nid)])
              (P ++ [("pre_run_fns", V.fnreg [])]) A) (nid + 1)) := by
  have hnone1 : alookup nid R = Option.none := (amem_false_iff _ _).mp h1
  have hsetups := run_setups_fresh (fuel+9) (mkMl [nid, r0] (kn ++ [nid]))
    (mkCaches R P A) h4
  have hcreate := run_init_create_active (fuel+2) (mkMl [nid, r0] (kn ++ [nid]))
    (mkCaches R (P ++ [("pre_run_fns", V.fnreg [])]) A) nid rfl h1
  have hlk : alookup nid (R ++ [(nid, cleanupCache nid)]) = some (cleanupCache nid) :=
    alookup_append_self _ hnone1
  have hcadd : Cache.add (cleanupCache nid) "enclosing_run" (V.runRef (some r0))
      = Except.ok (nestedCache r0 nid) := rfl
  have haset : aset nid (nestedCache r0 nid) (R ++ [(nid, cleanupCache nid)])
      = R ++ [(nid, nestedCache r0 nid)] := aset_append_self _ _ hnone1
  have hradd : run_add (fuel+9) (mkMl [nid, r0] (kn ++ [nid]))
      "enclosing_run" (V.runRef (some r0)) Option.none
      (mkCaches R (P ++ [("pre_run_fns", V.fnreg [])]) A)
      = Except.ok (mkCaches (R ++ [(nid, nestedCache r0 nid)])
          (P ++ [("pre_run_fns", V.fnreg [])]) A) := by
    simp [run_add, hcreate, hlk, hcadd, haset]
  simp [intermediate_enter, start_run_nested, mlflow_active_run, hsetups, hradd]

/-! ### Claim C5 -/

/-- C5: starting an intermediate run while R0 is active yields a nested run with R0
stashed as its enclosing run; on scope exit, if the nested run is still active the
finally block explicitly ends it (the run stack returns to [R0]) and the nested
run's run cache is gone from the registry, with R0 the active run again; if the
nested run already ended naturally (via `end_run` inside the scope), exit also
leaves R0 active. -/
theorem c5_intermediate_run_restores (fuel r0 nid : Nat) (R : List (Nat × Cache))
    (P : Cache) (A : List String) (kn : List Nat)
    (h1 : amem nid R = false) (h2 : amem r0 R = false) (h3 : nid ≠ r0)
    (h4 : alookup "pre_run_fns" P = Option.none)
    (h5 : alookup "consolidated_dict" P = Option.none) :
    ∃ s1 : Pads,
      intermediate_enter (fuel+9) true (mkPads (mkMl [r0] kn) (mkCaches R P A) nid)
        = Except.ok (some r0, nid, s1) ∧
      mlflow_active_run s1.ml = some nid ∧
      (∃ s2, intermediate_exit (fuel+9) (some r0) s1 = Except.ok s2 ∧
        mlflow_active_run s2.ml = some r0 ∧ s2.ml.stack = [r0] ∧
        amem nid s2.caches.runCaches = false) ∧
      (∀ ml3 c3 ex w, end_run (fuel+9) s1.ml s1.caches = Except.ok (ml3, c3, ex, w) →
        ∃ s3, intermediate_exit (fuel+9) (some r0) (mkPads ml3 c3 s1.nextId)
            = Except.ok s3 ∧
          mlflow_active_run s3.ml = some r0) := by
  have hnone1 : alookup nid R = Option.none := (amem_false_iff _ _).mp h1
  have hnone2 : alookup r0 R = Option.none := (amem_false_iff _ _).mp h2
  have hrc1 : alookup nid (R ++ [(nid, nestedCache r0 nid)]) = some (nestedCache r0 nid) :=
    alookup_append_self _ hnone1
  have hmem1 : amem nid (R ++ [(nid, nestedCache r0 nid)]) = true :=
    (amem_true_iff _ _).mpr ⟨_, hrc1⟩
  have hloc1 := get_teardown_registry_present (fuel+6) (mkMl [nid, r0] (kn ++ [nid]))
    (mkCaches (R ++ [(nid, nestedCache r0 nid)]) (P ++ [("pre_run_fns", V.fnreg [])]) A)
    nid (nestedCache r0 nid) [("cache_cleanup", cleanupEntry nid)] rfl hrc1 rfl
  have hkn : nid ∈ kn ++ [nid] := by simp
  have hdel : run_delete (fuel+9) (mkMl [nid, r0] (kn ++ [nid])) (some nid)
      (mkCaches (R ++ [(nid, nestedCache r0 nid)]) (P ++ [("pre_run_fns", V.fnreg [])]) A)
      = Except.ok (mkCaches R (P ++ [("pre_run_fns", V.fnreg [])]) A) := by
    simp [run_delete, run_init_cached (fuel+8) (mkMl [nid, r0] (kn ++ [nid]))
        (mkCaches (R ++ [(nid, nestedCache r0 nid)])
          (P ++ [("pre_run_fns", V.fnreg [])]) A) nid hkn hmem1,
      aerase_append_self _ hnone1]
  have hloop : teardownLoop (fuel+9) (mkMl [nid, r0] (kn ++ [nid])) [cleanupEntry nid]
      (mkCaches (R ++ [(nid, nestedCache r0 nid)]) (P ++ [("pre_run_fns", V.fnreg [])]) A)
      [] []
      = (mkCaches R (P ++ [("pre_run_fns", V.fnreg [])]) A, ["cache_cleanup"], []) := by
    simp [teardownLoop, execEntry, cleanupEntry, hdel]
  have hcd : alookup "consolidated_dict" (P ++ [("pre_run_fns", V.fnreg [])])
      = Option.none := by
    rw [alookup_append_of_none _ h5]
    rfl
  have hend : end_run (fuel+9) (mkMl [nid, r0] (kn ++ [nid]))
      (mkCaches (R ++ [(nid, nestedCache r0 nid)]) (P ++ [("pre_run_fns", V.fnreg [])]) A)
      = Except.ok (mkMl [r0] (kn ++ [nid]),
          mkCaches R (P ++ [("pre_run_fns", V.fnreg [])]) A, ["cache_cleanup"], []) := by
    simp [end_run, mlflow_active_run, hcd, hloc1,
      show sortEntries [cleanupEntry nid] = [cleanupEntry nid] from rfl, hloop]
  refine ⟨mkPads (mkMl [nid, r0] (kn ++ [nid]))
      (mkCaches (R ++ [(nid, nestedCache r0 nid)]) (P ++ [("pre_run_fns", V.fnreg [])]) A)
      (nid + 1), intermediate_enter_eval fuel r0 nid R P A kn h1 h4, rfl, ?_, ?_⟩
  · -- scenario: the nested run is still active on exit
    have hclear : run_clear (fuel+9) (mkMl [r0] (kn ++ [nid])) Option.none
        (mkCaches R (P ++ [("pre_run_fns", V.fnreg [])]) A)
        = Except.ok (mkCaches (R ++ [(r0, [])]) (P ++ [("pre_run_fns", V.fnreg [])]) A) := by
      simp [run_clear, run_init_create_active (fuel+3) (mkMl [r0] (kn ++ [nid]))
          (mkCaches R (P ++ [("pre_run_fns", V.fnreg [])]) A) r0 rfl h2,
        alookup_append_self _ hnone2, Cache.clear, aset_append_self _ _ hnone2]
    have hrc2 : alookup r0 (R ++ [(r0, ([] : Cache))]) = some [] :=
      alookup_append_self _ hnone2
    have hmem2 : amem r0 (R ++ [(r0, ([] : Cache))]) = true :=
      (amem_true_iff _ _).mpr ⟨_, hrc2⟩
    have hdel2 : run_delete (fuel+9) (mkMl [r0] (kn ++ [nid])) Option.none
        (mkCaches (R ++ [(r0, [])]) (P ++ [("pre_run_fns", V.fnreg [])]) A)
        = Except.ok (mkCaches R (P ++ [("pre_run_fns", V.fnreg [])]) A) := by
      simp [run_delete, run_init_active_cached (fuel+8) (mkMl [r0] (kn ++ [nid]))
          (mkCaches (R ++ [(r0, [])]) (P ++ [("pre_run_fns", V.fnreg [])]) A) r0 rfl hmem2,
        aerase_append_self _ hnone2]
    refine ⟨mkPads (mkMl [r0] (kn ++ [nid]))
        (mkCaches R (P ++ [("pre_run_fns", V.fnreg [])]) A) (nid + 1), ?_, rfl, rfl, h1⟩
    simp [intermediate_exit, mlflow_active_run, h3, hend, hclear, hdel2]
  · -- scenario: the nested run already ended naturally inside the scope
    intro ml3 c3 ex w hendrun
    rw [hend] at hendrun
    simp only [Except.ok.injEq, Prod.mk.injEq] at hendrun
    obtain ⟨hml3, hc3, _, _⟩ := hendrun
    subst hml3
    subst hc3
    refine ⟨mkPads (mkMl [r0] (kn ++ [nid]))
        (mkCaches R (P ++ [("pre_run_fns", V.fnreg [])]) A) (nid + 1), ?_, rfl⟩
    simp [intermediate_exit, mlflow_active_run]

/-- C5 witness: run 1 active, fresh nested run 2, empty registries and caches. -/
theorem c5_intermediate_run_restores_witness :
    ∃ s1 : Pads,
      intermediate_enter 9 true (mkPads (mkMl [1] [1]) (mkCaches [] [] []) 2)
        = Except.ok (some 1, 2, s1) ∧
      mlflow_active_run s1.ml = some 2 ∧
      (∃ s2, intermediate_exit 9 (some 1) s1 = Except.ok s2 ∧
        mlflow_active_run s2.ml = some 1 ∧ s2.ml.stack = [1] ∧
        amem 2 s2.caches.runCaches = false) ∧
      (∀ ml3 c3 ex w, end_run 9 s1.ml s1.caches = Except.ok (ml3, c3, ex, w) →
        ∃ s3, intermediate_exit 9 (some 1) (mkPads ml3 c3 s1.nextId) = Except.ok s3 ∧
          mlflow_active_run s3.ml = some 1) :=
  c5_intermediate_run_restores 0 1 2 [] [] [] [1] rfl rfl (by decide) rfl rfl

/-! ### Claim C6 -/

/-- C6: during `end_run`, every registered teardown entry is invoked even when others
raise — the executed names are exactly all sorted entries' names; any entry that
raises an exception or a KeyboardInterrupt is caught and logged as a warning naming
the failing entry; and `end_run` still returns normally with the active run closed
(popped from the run stack). -/
theorem c6_teardown_fault_isolation (fuel : Nat) (ctx : MlCtx) (c : Caches) (r : Nat)
    (rc : Cache) (treg : List (String × TDEntry))
    (hact : mlflow_active_run ctx = some r)
    (hrc : alookup r c.runCaches = some rc)
    (ht : alookup "post_run_fns" rc = some (V.fnreg treg)) :
    ∃ c3 w, end_run (fuel+3) ctx c
        = Except.ok ({ ctx with stack := ctx.stack.tail }, c3,
            (sortEntries (treg.map Prod.snd)).map TDEntry.fname, w) ∧
      (∀ e m, e ∈ sortEntries (treg.map Prod.snd) →
          e.act = TDAct.user (TDOutcome.raises m) → failMsg e m ∈ w) ∧
      (∀ e, e ∈ sortEntries (treg.map Prod.snd) →
          e.act = TDAct.user TDOutcome.interrupt → failMsg e "KeyboardInterrupt" ∈ w) := by
  obtain ⟨c3, w, h1, h2⟩ := end_run_executed fuel ctx c r rc treg hact hrc ht
  refine ⟨c3, w, h1, ?_, ?_⟩
  · intro e m he hm
    exact h2 e m he (by simp [raisedMsg, hm])
  · intro e he hm
    exact h2 e "KeyboardInterrupt" he (by simp [raisedMsg, hm])

/-- C6 witness: three teardown entries with orders 1, 2, 3 where the second raises;
all three names appear in the executed sequence and the failure is warned. -/
theorem c6_teardown_fault_isolation_witness :
    ∃ c3 w, end_run 3 { stack := [7], known := [7] } w6caches
        = Except.ok ({ stack := [], known := [7] }, c3,
            (sortEntries (w6reg.map Prod.snd)).map TDEntry.fname, w) ∧
      (∀ e m, e ∈ sortEntries (w6reg.map Prod.snd) →
          e.act = TDAct.user (TDOutcome.raises m) → failMsg e m ∈ w) ∧
      (∀ e, e ∈ sortEntries (w6reg.map Prod.snd) →
          e.act = TDAct.user TDOutcome.interrupt → failMsg e "KeyboardInterrupt" ∈ w) :=
  c6_teardown_fault_isolation 0 { stack := [7], known := [7] } w6caches 7
    [("post_run_fns", V.fnreg w6reg)] w6reg rfl rfl rfl

/-! ### Claim C7 -/

/-- C7: `run_setups` and `end_run` invoke the registered callables sorted ascending by
their numeric order field: the invocation sequence equals the names of the entries
sorted by `entryLE` (lower order first), which is a sorted permutation of the
registered entries. -/
theorem c7_run_functions_sorted (fuel : Nat) (ctx : MlCtx) (c : Caches)
    (sreg treg : List (String × TDEntry)) (r : Nat) (rc : Cache)
    (hs : alookup "pre_run_fns" c.proc = some (V.fnreg sreg))
    (hok : ∀ e ∈ sreg.map Prod.snd, e.act = TDAct.user TDOutcome.ok)
    (hact : mlflow_active_run ctx = some r)
    (hrc : alookup r c.runCaches = some rc)
    (ht : alookup "post_run_fns" rc = some (V.fnreg treg)) :
    run_setups (fuel+3) ctx c
        = Except.ok (c, (sortEntries (sreg.map Prod.snd)).map TDEntry.fname) ∧
    (∀ res, end_run (fuel+3) ctx c = Except.ok res →
        res.2.2.1 = (sortEntries (treg.map Prod.snd)).map TDEntry.fname) ∧
    List.Sorted entryLE (sortEntries (sreg.map Prod.snd)) ∧
    List.Sorted entryLE (sortEntries (treg.map Prod.snd)) ∧
    (sortEntries (sreg.map Prod.snd)).Perm (sreg.map Prod.snd) ∧
    (sortEntries (treg.map Prod.snd)).Perm (treg.map Prod.snd) := by
  have hok2 : ∀ e ∈ sortEntries (sreg.map Prod.snd), e.act = TDAct.user TDOutcome.ok :=
    fun e he => hok e ((sortEntries_perm (sreg.map Prod.snd)).mem_iff.mp he)
  obtain ⟨c3, w, h1, _⟩ := end_run_executed fuel ctx c r rc treg hact hrc ht
  refine ⟨?_, ?_, sortEntries_sorted _, sortEntries_sorted _, sortEntries_perm _,
    sortEntries_perm _⟩
  · simp [run_setups, get_setup_registry, hs,
      setupLoop_all_ok (fuel+3) ctx (sortEntries (sreg.map Prod.snd)) c [] hok2]
  · intro res hres
    rw [h1] at hres
    cases hres
    rfl

/-- C7 witness: setup entries registered with orders [5, 1, 3] (names "a", "b", "c")
execute as ["b", "c", "a"], i.e. in order sequence [1, 3, 5]. -/
theorem c7_run_functions_sorted_witness :
    run_setups 3 { stack := [7], known := [7] } w7caches
      = Except.ok (w7caches, ["b", "c", "a"]) := by
  have h := (c7_run_functions_sorted 0 { stack := [7], known := [7] } w7caches w7reg
    [] 7 [("post_run_fns", V.fnreg [])] rfl (by decide) rfl rfl rfl).1
  rw [h]
  rfl

end Pypads
